/-
Verification of the Zalo exam-generator bot (src/app.py) against its
natural-language specification.

The development shallowly embeds the message-handling core of app.py:
  * Python strings are Lean `String`s (manipulated through their `data`
    character lists so that everything kernel-reduces),
  * the process-local `exam_sessions` dict is an association list,
  * outbound I/O (Zalo sendMessage / sendDocument, the Gemini generation
    call) is recorded as a list of `Effect`s, with the results of the
    external collaborators (Gemini, the PDF renderer, the document upload)
    supplied by an `Env` oracle,
  * a Python exception escaping a function is an `Outcome.exn` value;
    `try/except` blocks are translated explicitly.

Only user-visible outbound traffic is modelled as effects; `logger` calls
are not modelled (they are invisible to the end user and to every claim).
-/
import Mathlib

set_option maxHeartbeats 1000000
set_option maxRecDepth 8000

namespace ZaloApp

/-! ## Python string primitives

Helpers mirroring the Python string operations used by app.py.  They are
written by structural recursion on character lists so that concrete
instances evaluate inside the kernel (`decide` / `rfl`).  Unicode caveats:
`pyLower` lower-cases ASCII letters only and `Char.isWhitespace` covers
the ASCII whitespace characters; every string app.py applies these to at a
decision point (command prefixes, token separators, digit tests) is ASCII,
so the embedding agrees with Python there. -/

/-- ASCII lower-casing of one character (Python `str.lower`, restricted to
the ASCII range, which is all the command-prefix matching ever needs). -/
def asciiLower (c : Char) : Char :=
  if c.toNat ≥ 65 ∧ c.toNat ≤ 90 then Char.ofNat (c.toNat + 32) else c

/-- Python `text.lower()` (ASCII portion). -/
def pyLower (s : String) : String := ⟨s.data.map asciiLower⟩

/-- Python `s.startswith(pre)`. -/
def pyStartsWith (s pre : String) : Bool := pre.data.isPrefixOf s.data

/-- Splitter for Python `str.split()` : split on whitespace runs, no empty
tokens.  `acc` holds the (reversed) characters of the token being read. -/
def splitWsAux : List Char → List Char → List String
  | [], acc => if acc.isEmpty then [] else [⟨acc.reverse⟩]
  | c :: rest, acc =>
    if c.isWhitespace then
      if acc.isEmpty then splitWsAux rest [] else ⟨acc.reverse⟩ :: splitWsAux rest []
    else splitWsAux rest (c :: acc)

/-- Python `text.split()` (no separator argument). -/
def pySplit (s : String) : List String := splitWsAux s.data []

/-- Python `" ".join(parts)`. -/
def joinSpaces : List String → String
  | [] => ""
  | [x] => x
  | x :: xs => x ++ " " ++ joinSpaces xs

/-- Python `s.isdigit()` (ASCII digits). -/
def pyIsDigit (s : String) : Bool := !s.data.isEmpty && s.data.all Char.isDigit

/-- Python `int(s)` for a digit string. -/
def pyStrToNat (s : String) : Nat :=
  s.data.foldl (fun n c => n * 10 + (c.toNat - 48)) 0

/-- Python `s[:n]` for `n ≥ 0`. -/
def pyTrunc (n : Nat) (s : String) : String := ⟨s.data.take n⟩

/-- First index of character `c` in `l`, counting from `i`. -/
def findIdxFrom (c : Char) : List Char → Nat → Option Nat
  | [], _ => none
  | a :: rest, i => if a = c then some i else findIdxFrom c rest (i + 1)

/-- Python `s.find(c)` : first index of `c`, or `-1`. -/
def pyFindChar (s : String) (c : Char) : Int :=
  match findIdxFrom c s.data 0 with
  | some n => (n : Int)
  | none => -1

/-- Python `s.rfind(c)` : last index of `c`, or `-1`. -/
def pyRfindChar (s : String) (c : Char) : Int :=
  match findIdxFrom c s.data.reverse 0 with
  | some n => ((s.data.length - 1 - n : Nat) : Int)
  | none => -1

/-- Python `s[a:b]` for the non-negative indices at which app.py uses it
(`a` is a successful `find` result, `b` is `rfind + 1 ≥ 0`). -/
def pySlice (s : String) (a b : Int) : String :=
  ⟨(s.data.take b.toNat).drop a.toNat⟩

/-- Bool test: `needle` is a prefix of `hay` (plain recursion, kernel
friendly). -/
def chPrefix : List Char → List Char → Bool
  | [], _ => true
  | _ :: _, [] => false
  | a :: as, b :: bs => a == b && chPrefix as bs

/-- Bool test: `needle` occurs as a contiguous substring of `hay`. -/
def chInfix (needle : List Char) : List Char → Bool
  | [] => needle.isEmpty
  | c :: rest => chPrefix needle (c :: rest) || chInfix needle rest

/-- Python `needle in hay` for strings. -/
def strContains (hay needle : String) : Bool := chInfix needle.data hay.data

/-- The character `{` (written via its code point to keep brace characters
out of the source text). -/
def lbrace : Char := Char.ofNat 123

/-- The character `}`. -/
def rbrace : Char := Char.ofNat 125

/-! ## Data model

The concrete data manipulated by app.py's message-handling core. -/

/-- One entry of the `exam_sessions` dict (app.py:559-562):
`exam_sessions[session_key] = {'step': 'subject', 'data': {}}`.
No other code in app.py ever writes another shape. -/
structure ExamSession where
  step : String
  data : List (String × String)
  deriving DecidableEq, Repr

/-- The process-local `exam_sessions` dict (app.py:406), as an insertion
ordered association list. -/
abbrev Table := List (String × ExamSession)

/-- Lookup in a `Table` (first matching key, as in a dict with unique
keys). -/
def tlookup : Table → String → Option ExamSession
  | [], _ => none
  | (k, v) :: rest, key => if k = key then some v else tlookup rest key

/-- Python dict assignment `d[k] = v`: overwrite in place if the key is
present, append otherwise. -/
def dictSet : Table → String → ExamSession → Table
  | [], key, v => [(key, v)]
  | (k, w) :: rest, key, v =>
    if k = key then (key, v) :: rest else (k, w) :: dictSet rest key v

/-- One question of an ExamSpec, with the fields app.py reads
(`question.get('question', '')`, `question.get('options')`,
`question.get('type')`).  Absent dict keys are `none` / `[]`. -/
structure Question where
  question : Option String
  options : List String
  qtype : Option String
  deriving DecidableEq, Repr

/-- An ExamSpec as produced by `generate_exam` / hard-coded by
`create_demo_exam`; absent dict keys are `none`. -/
structure ExamData where
  title : Option String
  subject : Option String
  grade : Option String
  duration : Option String
  instructions : Option String
  questions : List Question
  deriving DecidableEq, Repr

/-- Outbound traffic and external-service invocations recorded while a
message is handled.  `sendText` carries the wire text (already truncated
to 2000 characters by `ZaloBot.send_message`, app.py:201); `sendDocument`
is the document-delivery attempt of `ZaloBot.send_document`;
`generateExam` records one invocation of
`GeminiExamGenerator.generate_exam` with its arguments; `aiComplete` is a
free-text AI completion request (present in the effect vocabulary so that
the routing claims can be stated — this variant of the app never emits
it). -/
inductive Effect where
  | sendText (chat_id text : String)
  | sendDocument (chat_id caption : String)
  | generateExam (subject grade : String) (num_questions : Nat)
      (question_types : List String) (topics : Option String)
  | aiComplete (prompt : String)
  deriving DecidableEq, Repr

/-- True exactly on the `aiComplete` effect. -/
def isAiEffect : Effect → Bool
  | .aiComplete _ => true
  | _ => false

/-- True exactly on the `generateExam` effect. -/
def isGenerateEffect : Effect → Bool
  | .generateExam _ _ _ _ _ => true
  | _ => false

/-- Results of the external collaborators, supplied as an oracle:
`genExam` is what `GeminiExamGenerator.generate_exam` returns for given
arguments (already `none` on missing / malformed JSON), `pdfOk` whether
`ExamPDFGenerator.generate_exam_pdf` returns a path, `sendDocOk` whether
`ZaloBot.send_document` returns a truthy result, `now` the formatted
clock reading, `botConfigured` / `geminiConfigured` whether the
credentials are set (app.py:401-402). -/
structure Env where
  genExam : String → String → Nat → List String → Option String → Option ExamData
  pdfOk : Bool
  sendDocOk : Bool
  now : String
  botConfigured : Bool
  geminiConfigured : Bool

/-- Result of running one of app.py's handler functions: the outbound
effects emitted (in order), the resulting `exam_sessions` table, and the
Python exception escaping the function, if any. -/
structure Outcome where
  effects : List Effect
  sessions : Table
  exn : Option String
  deriving DecidableEq, Repr

/-- An HTTP response of the `/webhook` endpoint: status code plus the
value of the `status` field of the JSON body it returns
(`jsonify(\x7b"status": ...\x7d)`, app.py:434 and 437). -/
structure HttpResponse where
  status : Nat
  statusField : String
  deriving DecidableEq, Repr

/-- The parts of a webhook delivery's `message` object that
`handle_message` reads (app.py:442-445).  A missing `chat.id` or missing
`text` surfaces as `""` here, matching the falsiness test
`if not chat_id or not text` (app.py:447). -/
structure InboundMessage where
  chat_id : String
  from_id : String
  text : String
  deriving DecidableEq, Repr

/-! ## Fixed reply texts

The literal reply strings of app.py (kept verbatim, including trailing
spaces). -/

/-- Reply to `/start` (app.py:454-467). -/
def welcome_msg : String :=
  "🎓 **Chào mừng đến với Exam Generator Bot!**\n\n✨ **Tính năng:**\n• 📝 Tạo đề thi tự động bằng Gemini AI\n• 📄 Xuất file PDF chuyên nghiệp  \n• 🔍 Tìm kiếm nội dung mới nhất\n• 🎯 Tùy chỉnh theo từng môn học\n\n📋 **Cách sử dụng:**\n• `/create` - Tạo đề thi mới\n• `/help` - Hướng dẫn chi tiết\n• `/demo` - Tạo đề thi mẫu\n\n🚀 **Bắt đầu:** Gõ `/create` để tạo đề thi đầu tiên!"

/-- Reply to `/help` (app.py:472-492). -/
def help_msg : String :=
  "📚 **Hướng dẫn sử dụng Exam Generator Bot**\n\n🔧 **Commands:**\n• `/create` - Bắt đầu tạo đề thi mới\n• `/demo` - Tạo đề thi toán lớp 10 mẫu\n• `/status` - Kiểm tra trạng thái hệ thống\n\n📝 **Quy trình tạo đề thi:**\n1️⃣ Gõ `/create` \n2️⃣ Nhập thông tin: môn học, lớp, số câu\n3️⃣ Bot tạo đề thi bằng Gemini AI\n4️⃣ Xuất file PDF và gửi qua Zalo\n\n💡 **Ví dụ lệnh tạo nhanh:**\n`/create Toán 10 15 trắc nghiệm hàm số`\n`/create Văn 12 10 tự luận thơ Nguyễn Du`\n\n🎯 **Hỗ trợ:**\n• Tất cả môn học từ lớp 1-12\n• Trắc nghiệm, tự luận, điền khuyết\n• Tìm kiếm nội dung mới nhất"

/-- Reply to unmatched free text with no open session (app.py:525-532). -/
def suggestion_msg : String :=
  "💡 **Gợi ý:**\n\nĐể tạo đề thi, hãy sử dụng:\n• `/create` - Tạo đề thi mới\n• `/demo` - Xem đề thi mẫu\n• `/help` - Hướng dẫn chi tiết\n\n🎓 Hoặc thử ngay: `/create Toán 10 15 trắc nghiệm`"

/-- Prompt opening an interactive exam session (app.py:564-575). -/
def create_prompt_msg : String :=
  "📝 **Tạo đề thi mới**\n\nNhập thông tin theo format:\n`[Môn học] [Lớp] [Số câu] [Loại câu] [Chủ đề]`\n\n🎯 **Ví dụ:**\n• `Toán 10 15 trắc nghiệm hàm số`\n• `Văn 12 10 tự luận thơ Nguyễn Du`\n• `Anh 9 20 điền khuyết thì quá khứ`\n\n💡 **Hoặc nhập từng bước:**\nMôn học (Toán, Văn, Anh, Lý, Hóa, ...)?: "

/-- Reply to `/status` (app.py:504-515). -/
def status_msg (env : Env) (t : Table) : String :=
  "⚡ **Trạng thái hệ thống:**\n\n🤖 Zalo Bot: " ++
  (if env.botConfigured then "✅ Hoạt động" else "❌ Lỗi") ++
  "\n🧠 Gemini AI: " ++
  (if env.geminiConfigured then "✅ Hoạt động" else "❌ Lỗi") ++
  "  \n📄 PDF Generator: ✅ Hoạt động\n🔒 Webhook: ✅ Bảo mật\n\n📊 **Thống kê:**\n• Sessions: " ++
  toString t.length ++ "\n• Uptime: " ++ env.now ++
  "\n\n🎯 **Sẵn sàng tạo đề thi!**"

/-! ## The embedded application functions -/

/-- The wire text of `ZaloBot.send_message` (app.py:201):
`data['text'] = text[:2000]`. -/
def send_message_wire_text (text : String) : String := pyTrunc 2000 text

/-- One `zalo_bot.send_message(chat_id, text)` call as an effect. -/
def sendMessageEffect (chat_id text : String) : Effect :=
  .sendText chat_id (send_message_wire_text text)

/-- The JSON-extraction step of `GeminiExamGenerator.generate_exam`
(app.py:377-394).  The accumulated streamed response is `response_text`
(an external input); `parse` models `json.loads` where a
`JSONDecodeError` (caught at app.py:391) is `none`.  `start_idx` is
`response_text.find('\x7b')`; `end_idx` is `response_text.rfind('\x7d') + 1`;
the guard is the source's `start_idx != -1 and end_idx != -1`.  The outer
`except` at app.py:396 makes any failure a `none` result, never a raised
error. -/
def generate_exam_parse (parse : String → Option ExamData)
    (response_text : String) : Option ExamData :=
  let start_idx : Int := pyFindChar response_text lbrace
  let end_idx : Int := pyRfindChar response_text rbrace + 1
  if start_idx ≠ -1 ∧ end_idx ≠ -1 then
    parse (pySlice response_text start_idx end_idx)
  else none

/-- The parsed inline form of a `/create` command.  Field values follow
app.py:548-552. -/
structure InlineSpec where
  subject : String
  grade : String
  num_questions : Nat
  question_type : String
  topics : Option String
  deriving DecidableEq, Repr

/-- The inline argument parse of `handle_create_exam` (app.py:545-552):
`parts = text.split()[1:]`; with at least 3 parts, positional fields,
`int(parts[2])` guarded by `isdigit` with fallback 10, question type
defaulting to "trắc nghiệm", remaining parts joined as topics (`None` if
absent).  Fewer than 3 parts selects the interactive path (`none`
here). -/
def parseInlineCreate (text : String) : Option InlineSpec :=
  match (pySplit text).drop 1 with
  | p0 :: p1 :: p2 :: rest =>
    some
      { subject := p0
        grade := p1
        num_questions := if pyIsDigit p2 then pyStrToNat p2 else 10
        question_type := rest.headD "trắc nghiệm"
        topics := if rest.length > 1 then some (joinSpaces (rest.drop 1)) else none }
  | _ => none

/-- Caption of the generated-exam document (app.py:607-614).  `topics or
'Tổng hợp'` is Python truthiness: `None` and `""` both fall back. -/
def examCaption (e : ExamData) (subject grade : String)
    (topics : Option String) : String :=
  "📄 **Đề thi " ++ e.subject.getD subject ++ "**\n\n📚 Lớp: " ++
  e.grade.getD grade ++ "\n📝 Số câu: " ++ toString e.questions.length ++
  "\n⏰ Thời gian: " ++ e.duration.getD "45 phút" ++ "\n🎯 Chủ đề: " ++
  (match topics with
   | some s => if s = "" then "Tổng hợp" else s
   | none => "Tổng hợp") ++
  "\n\n✅ Đề thi đã được tạo bằng Gemini AI"

/-- The exam text built by `format_exam_as_text` before the final
`text[:1500]` truncation (app.py:686-708): header from the exam fields
(with the source's `.get` defaults), the first five questions
(`questions[:5]`) with lettered options (`chr(65 + j)`), the
omitted-questions note when more than five questions exist, and the
footer. -/
def exam_text_full (e : ExamData) : String :=
  let header :=
    "📋 **" ++ e.title.getD "ĐỀ THI" ++ "**\n\n📚 Môn: " ++
    e.subject.getD "N/A" ++ "\n🎓 Lớp: " ++ e.grade.getD "N/A" ++
    "  \n⏰ Thời gian: " ++ e.duration.getD "45 phút" ++
    "\n\n📝 **Hướng dẫn:** " ++ e.instructions.getD "Làm bài cẩn thận" ++
    "\n\n───────────────────"
  let questionBlock := fun (i : Nat) (q : Question) =>
    "\n\n**Câu " ++ toString i ++ ":** " ++ q.question.getD "" ++
    (if q.options.isEmpty then ""
     else String.join ((q.options.enum.map
       fun p => "\n" ++ String.mk [Char.ofNat (65 + p.1)] ++ ". " ++ p.2)))
  let body := String.join ((e.questions.take 5).enum.map
    fun p => questionBlock (p.1 + 1) p.2)
  let note :=
    if e.questions.length > 5 then
      "\n\n... (và " ++ toString (e.questions.length - 5) ++
      " câu khác trong file PDF)"
    else ""
  let footer :=
    "\n\n───────────────────\n✅ **Tổng " ++ toString e.questions.length ++
    " câu** - Tạo bởi Gemini AI"
  header ++ body ++ note ++ footer

/-- `format_exam_as_text` (app.py:683-714): the exam text, truncated to
1500 characters (`return text[:1500]`, app.py:710).  The body of the
source function cannot raise, so the `except` arm at app.py:712 is
unreachable. -/
def format_exam_as_text (e : ExamData) : String :=
  pyTrunc 1500 (exam_text_full e)

/-- `create_exam_async` (app.py:583-631): invoke the Gemini generator
(recorded as a `generateExam` effect, result taken from the oracle); on
`None` send the generation-failure reply; otherwise render the PDF
(oracle `pdfOk`), on failure send the PDF-failure reply; otherwise attempt
document delivery and, depending on its truthiness (oracle `sendDocOk`),
send the success reply or the plain-text fallback.  Every exception is
caught at app.py:629, so nothing escapes. -/
def create_exam_async (env : Env) (chat subject grade : String)
    (num_questions : Nat) (question_types : List String)
    (topics : Option String) : List Effect :=
  Effect.generateExam subject grade num_questions question_types topics ::
  match env.genExam subject grade num_questions question_types topics with
  | none => [sendMessageEffect chat "❌ Không thể tạo đề thi. Vui lòng thử lại!"]
  | some exam =>
    if env.pdfOk then
      Effect.sendDocument chat (examCaption exam subject grade topics) ::
      (if env.sendDocOk then
        [sendMessageEffect chat "✅ Đã gửi đề thi PDF thành công!\n\n💡 Gõ `/create` để tạo đề thi khác."]
      else
        [sendMessageEffect chat ("📝 **Nội dung đề thi:**\n\n" ++ format_exam_as_text exam)])
    else [sendMessageEffect chat "❌ Không thể tạo file PDF. Vui lòng thử lại!"]

/-- The hard-coded demo exam of `create_demo_exam` (app.py:635-659). -/
def demo_exam : ExamData :=
  { title := some "ĐỀ KIỂM TRA TOÁN HỌC"
    subject := some "Toán"
    grade := some "Lớp 10"
    duration := some "45 phút"
    instructions := some "Đọc kỹ đề bài. Viết rõ ràng, sạch sẽ."
    questions :=
      [{ question := some "Hàm số nào sau đây là hàm số bậc nhất?"
         options := ["y = 2x + 1", "y = x²", "y = 1/x", "y = √x"]
         qtype := some "multiple_choice" },
       { question := some "Tập xác định của hàm số y = √(x-1) là:"
         options := ["[1, +∞)", "(-∞, 1]", "ℝ", "(1, +∞)"]
         qtype := some "multiple_choice" }] }

/-- `create_exam_from_data` (app.py:663-681): render the PDF (oracle); on
success attempt document delivery and send a success reply only when the
delivery result is truthy — the falsy case has **no** else-branch in the
source, so nothing further is sent; on PDF failure send the demo-failure
reply.  `exam_data['title']` is a raw subscript: an absent title would
raise `KeyError`, caught by the function's own `except` (app.py:680)
which only logs, producing no effects. -/
def create_exam_from_data (env : Env) (chat : String) (e : ExamData) :
    List Effect :=
  if env.pdfOk then
    match e.title with
    | none => []
    | some title =>
      Effect.sendDocument chat ("📄 **" ++ title ++ "** (Demo)\n\n✅ Tạo bằng Gemini AI") ::
      (if env.sendDocOk then
        [sendMessageEffect chat "✅ Demo thành công! Gõ `/create` để tạo đề thi riêng."]
      else [])
  else [sendMessageEffect chat "❌ Không thể tạo demo PDF."]

/-- The call target of app.py:523.  No function named `handle_exam_input`
is defined anywhere in app.py, so in Python the call raises
`NameError: name 'handle_exam_input' is not defined` before doing
anything: no effect is emitted and the session table is untouched.  The
embedding therefore returns an immediately-escaping exception. -/
def handle_exam_input (t : Table) (_chat _user _text : String) : Outcome :=
  { effects := [], sessions := t, exn := some "NameError" }

/-- `handle_create_exam` (app.py:539-581): with at least three inline
argument tokens, announce and run `create_exam_async` with the parsed
values; otherwise create an interactive session at step `subject` with
empty data and send the step prompt.  The body cannot raise (the `int`
conversion is guarded by `isdigit`; `create_exam_async` catches its own
exceptions), so the `except` arm at app.py:579 is unreachable. -/
def handle_create_exam (env : Env) (t : Table) (chat user text : String) :
    Outcome :=
  let session_key := chat ++ "_" ++ user
  match parseInlineCreate text with
  | some spec =>
    { effects :=
        sendMessageEffect chat
          ("🔄 Đang tạo đề thi " ++ spec.subject ++ " lớp " ++ spec.grade ++ "...") ::
        create_exam_async env chat spec.subject spec.grade spec.num_questions
          [spec.question_type] spec.topics
      sessions := t
      exn := none }
  | none =>
    { effects := [sendMessageEffect chat create_prompt_msg]
      sessions := dictSet t session_key { step := "subject", data := [] }
      exn := none }

/-- Command classification of `handle_message`'s `elif` chain
(app.py:453-519): lower-cased prefix match, in source order. -/
inductive Cmd where
  | start | help | demo | create | status | plain
  deriving DecidableEq, Repr

/-- Which branch of the `elif` chain a text selects. -/
def commandOf (text : String) : Cmd :=
  let lower := pyLower text
  if pyStartsWith lower "/start" then .start
  else if pyStartsWith lower "/help" then .help
  else if pyStartsWith lower "/demo" then .demo
  else if pyStartsWith lower "/create" then .create
  else if pyStartsWith lower "/status" then .status
  else .plain

/-- `handle_message` (app.py:439-537).  Empty chat id or empty text
returns silently (app.py:447-448).  Commands dispatch per `commandOf`.
Unmatched text checks `session_key = f"..."` membership in
`exam_sessions` (app.py:521-523): with an open session it calls
`handle_exam_input` — undefined, so `NameError` — whose exception is
caught by the function-wide `except` (app.py:536-537), which only logs;
without one it sends the fixed suggestion reply.  The `except` swallows
every exception, so `exn` is always `none`. -/
def handle_message (env : Env) (t : Table) (chat user text : String) :
    Outcome :=
  if chat = "" ∨ text = "" then { effects := [], sessions := t, exn := none }
  else
    match commandOf text with
    | .start => { effects := [sendMessageEffect chat welcome_msg], sessions := t, exn := none }
    | .help => { effects := [sendMessageEffect chat help_msg], sessions := t, exn := none }
    | .demo =>
      { effects := sendMessageEffect chat "🔄 Đang tạo đề thi Toán lớp 10 mẫu..." ::
          create_exam_from_data env chat demo_exam
        sessions := t
        exn := none }
    | .create => handle_create_exam env t chat user text
    | .status => { effects := [sendMessageEffect chat (status_msg env t)], sessions := t, exn := none }
    | .plain =>
      if (tlookup t (chat ++ "_" ++ user)).isSome then
        let o := handle_exam_input t chat user text
        match o.exn with
        | some _ => { effects := o.effects, sessions := o.sessions, exn := none }
        | none => o
      else { effects := [sendMessageEffect chat suggestion_msg], sessions := t, exn := none }

/-- The `/webhook` endpoint (app.py:424-437).  The inbound body is
`none` when `request.get_json()` raises (empty or unparseable body) or
when the parsed body is not a dict — either way the exception lands in
the `except` arm, which answers 500 with `\x7b"status": "error"\x7d`;
`some none` is a JSON body without a `message` key (dispatch skipped);
`some (some msg)` dispatches to `handle_message`, which never raises.  On
dispatch (or skip) the endpoint answers 200 with
`\x7b"status": "ok"\x7d`.  `configuredSecret` is the process's
`WEBHOOK_SECRET_TOKEN` (app.py:36) and `secretHeader` the request's
`X-Zalo-Bot-Secret-Token` header; the source of this endpoint reads
neither (the secret is only forwarded to `setWebhook` during
registration, app.py:724), which the definition mirrors by ignoring both
parameters. -/
def webhook (env : Env) (t : Table) (body : Option (Option InboundMessage))
    (_configuredSecret : String) (_secretHeader : Option String) :
    HttpResponse × Table × List Effect :=
  match body with
  | none => ({ status := 500, statusField := "error" }, t, [])
  | some payload =>
    match payload with
    | none => ({ status := 200, statusField := "ok" }, t, [])
    | some msg =>
      let o := handle_message env t msg.chat_id msg.from_id msg.text
      ({ status := 200, statusField := "ok" }, o.sessions, o.effects)

/-! ## Concrete instances used by the closed theorems -/

/-- The session freshly created by the interactive `/create` path. -/
def freshSession : ExamSession := { step := "subject", data := [] }

/-- A fixed external environment: Gemini always fails, PDF rendering
fails, document delivery fails. -/
def env0 : Env :=
  { genExam := fun _ _ _ _ _ => none
    pdfOk := false
    sendDocOk := false
    now := "12:00:00"
    botConfigured := true
    geminiConfigured := true }

/-- An environment in which PDF rendering succeeds and document delivery
fails. -/
def envDocFail : Env :=
  { genExam := fun _ _ _ _ _ => none
    pdfOk := true
    sendDocOk := false
    now := "12:00:00"
    botConfigured := true
    geminiConfigured := true }

/-- An environment in which generation yields the demo exam, PDF
rendering succeeds and document delivery fails. -/
def envGenDemo : Env :=
  { genExam := fun _ _ _ _ _ => some demo_exam
    pdfOk := true
    sendDocOk := false
    now := "12:00:00"
    botConfigured := true
    geminiConfigured := true }

/-- A 2001-character text, over the outbound wire limit. -/
def longText : String := ⟨List.replicate 2001 'a'⟩

/-- A question whose text alone is 300 characters. -/
def longQuestion : Question :=
  { question := some ⟨List.replicate 300 'x'⟩, options := [], qtype := none }

/-- An exam of six long questions: the text of its first five questions
already exceeds 1500 characters. -/
def cexExam : ExamData :=
  { title := none, subject := none, grade := none, duration := none,
    instructions := none, questions := List.replicate 6 longQuestion }

/-! ## Helper lemmas -/

theorem tlookup_dictSet_self (t : Table) (key : String) (v : ExamSession) :
    tlookup (dictSet t key v) key = some v := by
  induction t with
  | nil => simp [dictSet, tlookup]
  | cons p rest ih =>
    obtain ⟨k, w⟩ := p
    by_cases h : k = key
    · simp [dictSet, h, tlookup]
    · simp [dictSet, h, tlookup, ih]

theorem tlookup_dictSet_ne (t : Table) (key k : String) (v : ExamSession)
    (h : k ≠ key) : tlookup (dictSet t key v) k = tlookup t k := by
  induction t with
  | nil =>
    have hk : ¬(key = k) := fun e => h e.symm
    simp [dictSet, tlookup, hk]
  | cons p rest ih =>
    obtain ⟨k0, w⟩ := p
    by_cases h0 : k0 = key
    · subst h0
      have hk : ¬(k0 = k) := fun e => h e.symm
      simp [dictSet, tlookup, hk]
    · simp [dictSet, h0, tlookup, ih]

theorem tlookup_dictSet_cases (t : Table) (key k : String)
    (v s : ExamSession) (h : tlookup (dictSet t key v) k = some s) :
    s = v ∨ tlookup t k = some s := by
  by_cases hk : k = key
  · subst hk
    rw [tlookup_dictSet_self] at h
    exact Or.inl (Option.some.inj h).symm
  · rw [tlookup_dictSet_ne t key k v hk] at h
    exact Or.inr h

theorem findIdxFrom_eq_none (c : Char) (l : List Char) (h : c ∉ l) :
    ∀ i, findIdxFrom c l i = none := by
  induction l with
  | nil => intro i; rfl
  | cons a rest ih =>
    intro i
    have ha : ¬(a = c) := fun hac => h (hac ▸ List.mem_cons_self a rest)
    have hr : c ∉ rest := fun hm => h (List.mem_cons_of_mem a hm)
    simp [findIdxFrom, ha, ih hr]

theorem pyFindChar_of_not_mem (s : String) (c : Char) (h : c ∉ s.data) :
    pyFindChar s c = -1 := by
  unfold pyFindChar
  rw [findIdxFrom_eq_none c s.data h 0]

theorem pyRfindChar_of_not_mem (s : String) (c : Char) (h : c ∉ s.data) :
    pyRfindChar s c = -1 := by
  unfold pyRfindChar
  have h2 : c ∉ s.data.reverse := fun hm => h (List.mem_reverse.mp hm)
  rw [findIdxFrom_eq_none c s.data.reverse h2 0]

theorem pyTrunc_length_le (n : Nat) (s : String) : (pyTrunc n s).length ≤ n := by
  show (s.data.take n).length ≤ n
  rw [List.length_take]
  exact Nat.min_le_left n s.data.length

theorem pyTrunc_of_length_le (n : Nat) (s : String) (h : s.length ≤ n) :
    pyTrunc n s = s := by
  show (⟨s.data.take n⟩ : String) = s
  rw [List.take_of_length_le h]

theorem pyTrunc_length_of_ge (n : Nat) (s : String) (h : n ≤ s.length) :
    (pyTrunc n s).length = n := by
  show (s.data.take n).length = n
  rw [List.length_take]
  exact Nat.min_eq_left h

theorem pyTrunc_append_of_le (n : Nat) (a b : String) (h : a.length ≤ n) :
    pyTrunc n (a ++ b) = a ++ pyTrunc (n - a.length) b := by
  obtain ⟨la⟩ := a
  obtain ⟨lb⟩ := b
  show (⟨(la ++ lb).take n⟩ : String) = ⟨la ++ lb.take (n - la.length)⟩
  rw [List.take_append_eq_append_take, List.take_of_length_le h]

/-- Branch lemma: unmatched text with an open session — the dispatch to
the undefined `handle_exam_input` raises, the `except` swallows it, and
nothing is emitted or changed. -/
theorem handle_message_plain_session (env : Env) (t : Table)
    (chat user text : String) (hc : chat ≠ "") (ht : text ≠ "")
    (hcmd : commandOf text = .plain)
    (hs : (tlookup t (chat ++ "_" ++ user)).isSome = true) :
    handle_message env t chat user text = { effects := [], sessions := t, exn := none } := by
  have h1 : ¬(chat = "" ∨ text = "") := by simp [hc, ht]
  unfold handle_message
  rw [if_neg h1, hcmd]
  simp [hs, handle_exam_input]

/-- Branch lemma: unmatched text with no open session — the fixed
suggestion reply is sent; the table is untouched. -/
theorem handle_message_plain_suggestion (env : Env) (t : Table)
    (chat user text : String) (hc : chat ≠ "") (ht : text ≠ "")
    (hcmd : commandOf text = .plain)
    (hs : (tlookup t (chat ++ "_" ++ user)).isSome = false) :
    handle_message env t chat user text =
      { effects := [sendMessageEffect chat suggestion_msg], sessions := t, exn := none } := by
  have h1 : ¬(chat = "" ∨ text = "") := by simp [hc, ht]
  unfold handle_message
  rw [if_neg h1, hcmd]
  simp [hs]

/-- The resulting session table is either untouched or extended with one
fresh interactive session. -/
theorem handle_message_sessions_cases (env : Env) (t : Table)
    (chat user text : String) :
    (handle_message env t chat user text).sessions = t ∨
    ∃ key, (handle_message env t chat user text).sessions =
      dictSet t key freshSession := by
  by_cases h1 : chat = "" ∨ text = ""
  · simp [handle_message, h1]
  · unfold handle_message
    rw [if_neg h1]
    cases hc : commandOf text with
    | create =>
      unfold handle_create_exam
      cases hp : parseInlineCreate text with
      | some spec => simp
      | none => exact Or.inr ⟨chat ++ "_" ++ user, rfl⟩
    | plain =>
      by_cases hs : (tlookup t (chat ++ "_" ++ user)).isSome = true
      · simp [hs, handle_exam_input]
      · simp [hs]
    | start => simp
    | help => simp
    | demo => simp
    | status => simp

/-- No exception ever escapes `handle_message` (the `except` at
app.py:536 catches everything). -/
theorem handle_message_exn_none (env : Env) (t : Table)
    (chat user text : String) :
    (handle_message env t chat user text).exn = none := by
  by_cases h1 : chat = "" ∨ text = ""
  · simp [handle_message, h1]
  · unfold handle_message
    rw [if_neg h1]
    cases hc : commandOf text with
    | create =>
      unfold handle_create_exam
      cases hp : parseInlineCreate text <;> simp
    | plain =>
      by_cases hs : (tlookup t (chat ++ "_" ++ user)).isSome = true
      · simp [hs, handle_exam_input]
      · simp [hs]
    | start => simp
    | help => simp
    | demo => simp
    | status => simp

/-! ## The claims -/

/-- C1: evaluation of the code at the failing input.  The claim says that
after `/create` creates an ExamSession at step `subject`, each subsequent
plain message advances the session one step, generation eventually fires
once, and the session is then removed.  On the code this is impossible:
`handle_message` dispatches the plain message to `handle_exam_input`
(app.py:523), a function defined nowhere in app.py, so the call raises
`NameError`, which the handler-wide `except` only logs.  Concretely:
`/create` from chat `1`, user `2` creates the session at step `subject`;
the next plain message `Toán` then leaves the session table completely
unchanged, emits no effect, and no exam generation is ever invoked. -/
theorem c1_interactive_session_never_advances :
    tlookup (handle_message env0 [] "1" "2" "/create").sessions "1_2" =
      some freshSession ∧
    handle_message env0 (handle_message env0 [] "1" "2" "/create").sessions
        "1" "2" "Toán" =
      { effects := []
        sessions := (handle_message env0 [] "1" "2" "/create").sessions
        exn := none } ∧
    ((handle_message env0 [] "1" "2" "/create").effects ++
      (handle_message env0 (handle_message env0 [] "1" "2" "/create").sessions
        "1" "2" "Toán").effects).all (fun e => !isGenerateEffect e) = true := by
  refine ⟨?_, ?_, ?_⟩ <;> decide

/-- C2: the inline `/create` parse.  For a text that tokenizes (Python
`str.split()`) to `/create` followed by at least three tokens, the parsed
spec is positional: subject = token 0, grade = token 1, question count =
token 2 as an integer with fallback 10 when non-numeric, question type =
token 3 with default "trắc nghiệm", topics = the remaining tokens joined
with spaces, `none` when absent. -/
theorem c2_inline_create_parse (text t0 t1 t2 : String) (rest : List String)
    (h : pySplit text = "/create" :: t0 :: t1 :: t2 :: rest) :
    parseInlineCreate text =
      some { subject := t0
             grade := t1
             num_questions := if pyIsDigit t2 then pyStrToNat t2 else 10
             question_type := rest.headD "trắc nghiệm"
             topics := if rest.length > 1 then some (joinSpaces (rest.drop 1))
                       else none } := by
  unfold parseInlineCreate
  rw [h]
  rfl

/-- C2 witness: the spec's concrete example,
`/create Toán 10 15 trắc_nghiệm hàm_số`, parses to subject `Toán`, grade
`10`, 15 questions, type `trắc_nghiệm`, topics `hàm_số`. -/
theorem c2_inline_create_parse_witness :
    pySplit "/create Toán 10 15 trắc_nghiệm hàm_số" =
      ["/create", "Toán", "10", "15", "trắc_nghiệm", "hàm_số"] ∧
    parseInlineCreate "/create Toán 10 15 trắc_nghiệm hàm_số" =
      some { subject := "Toán", grade := "10", num_questions := 15,
             question_type := "trắc_nghiệm", topics := some "hàm_số" } := by
  refine ⟨by decide, ?_⟩
  rw [c2_inline_create_parse "/create Toán 10 15 trắc_nghiệm hàm_số"
    "Toán" "10" "15" ["trắc_nghiệm", "hàm_số"] (by decide)]
  decide

/-- C3 counterexample: the claim says a non-command message with no open
session is routed to the AI Completion Gateway, which produces the reply.
On the code, the message `xin chào` from a key with no session is
answered with the fixed built-in suggestion text and no AI-completion
request is ever issued (the handler's effect trace contains no
`aiComplete` and the sent text is the constant `suggestion_msg`, not
gateway output). -/
theorem c3_free_text_routing_cex :
    (handle_message env0 [] "1" "2" "xin chào").effects =
      [sendMessageEffect "1" suggestion_msg] ∧
    (handle_message env0 [] "1" "2" "xin chào").effects.all
      (fun e => !isAiEffect e) = true := by
  refine ⟨?_, ?_⟩ <;> rfl

/-- C3 amended: a message matching no command prefix is routed on the
presence of an open session for the conversation key: with an open
session it is dispatched as session input (to `handle_exam_input`, which
is undefined, so the swallowed `NameError` leaves no effects and an
unchanged table); with no session the fixed suggestion reply — not an AI
completion — is sent.  In neither case does any AI-completion effect
occur. -/
theorem c3_free_text_routing_amended (env : Env) (t : Table)
    (chat user text : String) (hc : chat ≠ "") (ht : text ≠ "")
    (hcmd : commandOf text = .plain) :
    ((tlookup t (chat ++ "_" ++ user)).isSome = true →
      handle_message env t chat user text =
        { effects := [], sessions := t, exn := none }) ∧
    ((tlookup t (chat ++ "_" ++ user)).isSome = false →
      handle_message env t chat user text =
        { effects := [sendMessageEffect chat suggestion_msg],
          sessions := t, exn := none }) ∧
    (handle_message env t chat user text).effects.all
      (fun e => !isAiEffect e) = true := by
  refine ⟨fun hs => handle_message_plain_session env t chat user text hc ht hcmd hs,
    fun hs => handle_message_plain_suggestion env t chat user text hc ht hcmd hs, ?_⟩
  cases hs : (tlookup t (chat ++ "_" ++ user)).isSome with
  | true =>
    rw [handle_message_plain_session env t chat user text hc ht hcmd hs]
    rfl
  | false =>
    rw [handle_message_plain_suggestion env t chat user text hc ht hcmd hs]
    rfl

/-- C3 witness: the amended routing at a concrete input — `hello` from
chat 9, user 8, no open session — yields exactly the suggestion reply. -/
theorem c3_free_text_routing_witness :
    handle_message env0 [] "9" "8" "hello" =
      { effects := [sendMessageEffect "9" suggestion_msg],
        sessions := [], exn := none } :=
  (c3_free_text_routing_amended env0 [] "9" "8" "hello" (by decide) (by decide)
    (by decide)).2.1 (by decide)

/-- C4: `generate_exam` never raises on malformed output: for any
response text containing no `\x7b` or no `\x7d` the JSON-extraction step
yields `none` (when a `\x7b` exists but no `\x7d`, the source's
`rfind + 1 = 0` end index slices an empty string whose parse fails,
covered by the `parse "" = none` hypothesis about `json.loads`); and a
`none` generation result makes `create_exam_async` emit exactly the
user-facing failure reply after the generation attempt, without any
exception. -/
theorem c4_generate_exam_none_on_missing_json
    (parse : String → Option ExamData) (hparse : parse "" = none)
    (response_text : String)
    (hbrace : lbrace ∉ response_text.data ∨ rbrace ∉ response_text.data) :
    generate_exam_parse parse response_text = none ∧
    ∀ (env : Env) (chat subject grade : String) (num : Nat)
      (qtypes : List String) (topics : Option String),
      env.genExam subject grade num qtypes topics = none →
      create_exam_async env chat subject grade num qtypes topics =
        [Effect.generateExam subject grade num qtypes topics,
         sendMessageEffect chat "❌ Không thể tạo đề thi. Vui lòng thử lại!"] := by
  constructor
  · simp only [generate_exam_parse]
    rcases hbrace with h | h
    · rw [pyFindChar_of_not_mem _ _ h]
      simp
    · rw [pyRfindChar_of_not_mem _ _ h]
      by_cases hstart : pyFindChar response_text lbrace = -1
      · rw [hstart]
        simp
      · rw [if_pos ⟨hstart, by decide⟩]
        have hslice : pySlice response_text (pyFindChar response_text lbrace)
            (-1 + 1) = "" := by
          unfold pySlice
          norm_num
        rw [hslice, hparse]
  · intro env chat subject grade num qtypes topics hgen
    simp [create_exam_async, hgen]

/-- C4 witness: a concrete parse function with `parse "" = none`, a
concrete brace-free response text, and a concrete failing-generation
environment. -/
theorem c4_generate_exam_none_on_missing_json_witness :
    generate_exam_parse (fun _ => none) "hello there" = none ∧
    create_exam_async env0 "1" "Toán" "10" 15 ["trắc nghiệm"] none =
      [Effect.generateExam "Toán" "10" 15 ["trắc nghiệm"] none,
       sendMessageEffect "1" "❌ Không thể tạo đề thi. Vui lòng thử lại!"] := by
  have h := c4_generate_exam_none_on_missing_json (fun _ => none) rfl
    "hello there" (Or.inl (by decide))
  exact ⟨h.1, h.2 env0 "1" "Toán" "10" 15 ["trắc nghiệm"] none rfl⟩

/-- C5: the wire text of `send_text` is the input truncated to 2000
characters: it never exceeds 2000 characters, texts of length at most
2000 pass unchanged, and longer texts are cut to exactly their first 2000
characters. -/
theorem c5_send_text_truncation (text : String) :
    (send_message_wire_text text).length ≤ 2000 ∧
    (text.length ≤ 2000 → send_message_wire_text text = text) ∧
    (text.length > 2000 →
      send_message_wire_text text = ⟨text.data.take 2000⟩ ∧
      (send_message_wire_text text).length = 2000) :=
  ⟨pyTrunc_length_le 2000 text,
   fun h => pyTrunc_of_length_le 2000 text h,
   fun h => ⟨rfl, pyTrunc_length_of_ge 2000 text (Nat.le_of_lt h)⟩⟩

/-- C5 witness: a concrete 2001-character text is sent as exactly its
first 2000 characters. -/
theorem c5_send_text_truncation_witness :
    longText.length > 2000 ∧
    send_message_wire_text longText = ⟨longText.data.take 2000⟩ ∧
    (send_message_wire_text longText).length = 2000 := by
  have hlen : longText.length > 2000 := by
    show (List.replicate 2001 'a').length > 2000
    rw [List.length_replicate]
    decide
  have h := (c5_send_text_truncation longText).2.2 hlen
  exact ⟨hlen, h.1, h.2⟩

/-- C6 counterexample: the claim says a request whose secret header
differs from the configured shared secret is answered 403.  On the code
there is no secret check in the webhook endpoint at all: a well-formed
request carrying header value `wrong-secret` against configured secret
`s3cret` is answered 200, not 403. -/
theorem c6_webhook_secret_cex :
    (webhook env0 []
        (some (some { chat_id := "1", from_id := "2", text := "hi" }))
        "s3cret" (some "wrong-secret")).1.status = 200 ∧
    (webhook env0 []
        (some (some { chat_id := "1", from_id := "2", text := "hi" }))
        "s3cret" (some "wrong-secret")).1.status ≠ 403 := by
  refine ⟨rfl, ?_⟩
  decide

/-- C6 amended: the webhook endpoint performs no secret-header
verification whatsoever: its response is independent of the header value
(mismatched and absent headers alike are accepted), and no request is
ever answered 403. -/
theorem c6_webhook_secret_amended (env : Env) (t : Table)
    (body : Option (Option InboundMessage)) (secret : String)
    (h1 h2 : Option String) :
    webhook env t body secret h1 = webhook env t body secret h2 ∧
    (webhook env t body secret h1).1.status ≠ 403 := by
  constructor
  · rfl
  · rcases body with _ | (_ | m)
    · show (500 : Nat) ≠ 403
      decide
    · show (200 : Nat) ≠ 403
      decide
    · show (200 : Nat) ≠ 403
      decide

/-- C7 counterexample: the claim says an empty request body is answered
400.  On the code, `request.get_json()` raises on an empty body and the
handler's `except` answers 500 (with the constant body
`\x7b"status": "error"\x7d`, not an error detail), never 400. -/
theorem c7_webhook_status_cex :
    (webhook env0 [] none "s" none).1 =
      { status := 500, statusField := "error" } ∧
    (webhook env0 [] none "s" none).1.status ≠ 400 := by
  refine ⟨rfl, ?_⟩
  decide

/-- C7 amended: the webhook endpoint answers 200 with
`\x7b"status": "ok"\x7d` on every parseable JSON body (whether or not a
`message` is present, and regardless of how per-message handling fares,
since `handle_message` swallows its own exceptions), and 500 with the
constant body `\x7b"status": "error"\x7d` — no error detail — when the
body is empty or unparseable; it never answers 400. -/
theorem c7_webhook_status_amended (env : Env) (t : Table) (secret : String)
    (header : Option String) :
    (∀ payload, (webhook env t (some payload) secret header).1 =
      { status := 200, statusField := "ok" }) ∧
    (webhook env t none secret header).1 =
      { status := 500, statusField := "error" } ∧
    (∀ body, (webhook env t body secret header).1.status ≠ 400) := by
  refine ⟨fun payload => ?_, rfl, fun body => ?_⟩
  · rcases payload with _ | m <;> rfl
  · rcases body with _ | (_ | m)
    · show (500 : Nat) ≠ 400
      decide
    · show (200 : Nat) ≠ 400
      decide
    · show (200 : Nat) ≠ 400
      decide

/-- C8 counterexample: the claim says the plain-text fallback always
includes, for exams of more than five questions, a note stating how many
questions were omitted.  On the code the note is appended before the
`[:1500]` truncation, so with six questions of 300 characters each the
truncated rendering contains no omission note at all. -/
theorem c8_fallback_note_cex :
    cexExam.questions.length > 5 ∧
    strContains (format_exam_as_text cexExam) "câu khác" = false ∧
    strContains (exam_text_full cexExam) "câu khác" = true := by
  refine ⟨by decide, by decide, by decide⟩

/-- C8 amended: on delivery failure the fallback message carries
`format_exam_as_text`, which is the exam text truncated to at most 1500
characters and built from at most the first five questions; the
omitted-questions note (with the omitted count) is part of the
pre-truncation text whenever the exam has more than five questions, and —
truncation keeping prefixes — it survives into the sent rendering
whenever the text up to and including the note fits within 1500
characters; it can be truncated away when the first five questions alone
already exceed that limit. -/
theorem c8_fallback_text_amended (env : Env) (chat subject grade : String)
    (num : Nat) (qtypes : List String) (topics : Option String)
    (exam : ExamData)
    (hgen : env.genExam subject grade num qtypes topics = some exam)
    (hpdf : env.pdfOk = true) (hdoc : env.sendDocOk = false) :
    create_exam_async env chat subject grade num qtypes topics =
      [Effect.generateExam subject grade num qtypes topics,
       Effect.sendDocument chat (examCaption exam subject grade topics),
       sendMessageEffect chat
         ("📝 **Nội dung đề thi:**\n\n" ++ format_exam_as_text exam)] ∧
    (format_exam_as_text exam).length ≤ 1500 ∧
    format_exam_as_text exam = pyTrunc 1500 (exam_text_full exam) ∧
    (exam.questions.length > 5 →
      ∃ pre post, exam_text_full exam =
        pre ++ ("\n\n... (và " ++ toString (exam.questions.length - 5) ++
          " câu khác trong file PDF)") ++ post) ∧
    ((exam_text_full exam).length ≤ 1500 →
      format_exam_as_text exam = exam_text_full exam) ∧
    (∀ pre post, exam_text_full exam = pre ++ post → pre.length ≤ 1500 →
      ∃ tail, format_exam_as_text exam = pre ++ tail) := by
  refine ⟨?_, pyTrunc_length_le 1500 (exam_text_full exam), rfl, ?_, ?_, ?_⟩
  · simp [create_exam_async, hgen, hpdf, hdoc]
  · intro h
    simp only [exam_text_full]
    rw [if_pos h]
    exact ⟨_, _, rfl⟩
  · intro h
    exact pyTrunc_of_length_le 1500 (exam_text_full exam) h
  · intro pre post heq hlen
    refine ⟨pyTrunc (1500 - pre.length) post, ?_⟩
    unfold format_exam_as_text
    rw [heq, pyTrunc_append_of_le 1500 pre post hlen]

/-- C8 witness: the amended statement at a concrete environment whose
generation yields the two-question demo exam, with PDF rendering
succeeding and document delivery failing; the demo exam's full text fits
within 1500 characters, so its rendering is sent untruncated. -/
theorem c8_fallback_text_amended_witness :
    create_exam_async envGenDemo "1" "Toán" "10" 15 ["trắc nghiệm"] none =
      [Effect.generateExam "Toán" "10" 15 ["trắc nghiệm"] none,
       Effect.sendDocument "1" (examCaption demo_exam "Toán" "10" none),
       sendMessageEffect "1"
         ("📝 **Nội dung đề thi:**\n\n" ++ format_exam_as_text demo_exam)] ∧
    (format_exam_as_text demo_exam).length ≤ 1500 ∧
    format_exam_as_text demo_exam = exam_text_full demo_exam := by
  have h := c8_fallback_text_amended envGenDemo "1" "Toán" "10" 15
    ["trắc nghiệm"] none demo_exam rfl rfl rfl
  exact ⟨h.1, h.2.1, h.2.2.2.2.1 (by decide)⟩

/-- C9 counterexample: the claim says an unexpected internal exception
during message handling is answered with a generic Vietnamese apology
reply, never a silent drop.  On the code the handler's `except` only
logs.  Concretely, the plain message `Toán` with an open session raises
(`handle_exam_input` is undefined — a `NameError`), yet the handler emits
no outbound effect at all: the exception is swallowed and the user
receives nothing. -/
theorem c9_silent_drop_cex :
    (handle_exam_input [("1_2", freshSession)] "1" "2" "Toán").exn =
      some "NameError" ∧
    (handle_message env0 [("1_2", freshSession)] "1" "2" "Toán").effects = [] := by
  refine ⟨rfl, ?_⟩
  decide

/-- C9 amended: internal exceptions during message handling are caught at
the per-event handler boundary (nothing escapes), but they are only
logged: no apology reply is sent, so the failing message is silently
dropped.  Likewise, in the `/demo` flow a document-delivery failure
produces no fallback or failure message — the trace ends at the delivery
attempt. -/
theorem c9_exception_handling_amended (env : Env) (t : Table)
    (chat user text : String) (hcmd : commandOf text = .plain)
    (hs : (tlookup t (chat ++ "_" ++ user)).isSome = true) :
    (handle_message env t chat user text).exn = none ∧
    (handle_message env t chat user text).effects = [] ∧
    (env.pdfOk = true → env.sendDocOk = false → chat ≠ "" →
      (handle_message env t chat user "/demo").effects =
        [sendMessageEffect chat "🔄 Đang tạo đề thi Toán lớp 10 mẫu...",
         Effect.sendDocument chat
           "📄 **ĐỀ KIỂM TRA TOÁN HỌC** (Demo)\n\n✅ Tạo bằng Gemini AI"]) := by
  refine ⟨handle_message_exn_none env t chat user text, ?_, ?_⟩
  · by_cases h1 : chat = "" ∨ text = ""
    · simp [handle_message, h1]
    · push_neg at h1
      rw [handle_message_plain_session env t chat user text h1.1 h1.2 hcmd hs]
  · intro hp hd hc
    have h1 : ¬(chat = "" ∨ ("/demo" : String) = "") := by
      simp [hc]
    have hdemo : commandOf "/demo" = .demo := by decide
    unfold handle_message
    rw [if_neg h1, hdemo]
    simp [create_exam_from_data, hp, hd, demo_exam]

/-- C9 witness: the amended statement at the concrete failing inputs (an
open session with message `Toán`; a `/demo` whose document delivery
fails). -/
theorem c9_exception_handling_amended_witness :
    (handle_message envDocFail [("1_2", freshSession)] "1" "2" "Toán").exn =
      none ∧
    (handle_message envDocFail [("1_2", freshSession)] "1" "2" "Toán").effects =
      [] ∧
    (handle_message envDocFail [("1_2", freshSession)] "1" "2" "/demo").effects =
      [sendMessageEffect "1" "🔄 Đang tạo đề thi Toán lớp 10 mẫu...",
       Effect.sendDocument "1"
         "📄 **ĐỀ KIỂM TRA TOÁN HỌC** (Demo)\n\n✅ Tạo bằng Gemini AI"] := by
  have h := c9_exception_handling_amended envDocFail [("1_2", freshSession)]
    "1" "2" "Toán" (by decide) (by decide)
  exact ⟨h.1, h.2.1, h.2.2 rfl rfl (by decide)⟩

/-- C10: the session-table invariant.  Under the invariant that every
stored session is the fresh `\x7bstep: subject, data: \x7b\x7d\x7d` entry
(the only shape the program ever writes, since nothing beyond the
`/create` assignment touches the table), handling any message (a)
preserves every existing entry exactly — no operation mutates or removes
a session, so the key set is monotonically non-decreasing — (b) preserves
the invariant, and (c) on a plain (non-command) message from a key with
an open session leaves the table unchanged and sends no outbound
reply. -/
theorem c10_sessions_monotone (env : Env) (t : Table)
    (chat user text : String)
    (hinv : ∀ k s, tlookup t k = some s → s = freshSession) :
    (∀ k s, tlookup t k = some s →
      tlookup (handle_message env t chat user text).sessions k = some s) ∧
    (∀ k s, tlookup (handle_message env t chat user text).sessions k = some s →
      s = freshSession) ∧
    (commandOf text = .plain →
      (tlookup t (chat ++ "_" ++ user)).isSome = true →
      (handle_message env t chat user text).sessions = t ∧
      (handle_message env t chat user text).effects = []) := by
  obtain hcase := handle_message_sessions_cases env t chat user text
  refine ⟨?_, ?_, ?_⟩
  · intro k s hk
    rcases hcase with he | ⟨key, he⟩
    · rw [he]
      exact hk
    · rw [he]
      by_cases hkk : k = key
      · subst hkk
        rw [tlookup_dictSet_self, hinv k s hk]
      · rw [tlookup_dictSet_ne t key k _ hkk]
        exact hk
  · intro k s hk
    rcases hcase with he | ⟨key, he⟩
    · rw [he] at hk
      exact hinv k s hk
    · rw [he] at hk
      rcases tlookup_dictSet_cases t key k _ s hk with h | h
      · exact h
      · exact hinv k s h
  · intro hcmd hs
    by_cases h1 : chat = "" ∨ text = ""
    · refine ⟨?_, ?_⟩ <;> simp [handle_message, h1]
    · push_neg at h1
      rw [handle_message_plain_session env t chat user text h1.1 h1.2 hcmd hs]
      exact ⟨rfl, rfl⟩

/-- C10 witness: with the table holding the fresh session for key `1_2`,
the plain message `hi` from that key preserves the entry, keeps the table
unchanged and emits nothing. -/
theorem c10_sessions_monotone_witness :
    tlookup (handle_message env0 [("1_2", freshSession)] "1" "2" "hi").sessions
      "1_2" = some freshSession ∧
    (handle_message env0 [("1_2", freshSession)] "1" "2" "hi").sessions =
      [("1_2", freshSession)] ∧
    (handle_message env0 [("1_2", freshSession)] "1" "2" "hi").effects = [] := by
  have hinv : ∀ k s, tlookup [("1_2", freshSession)] k = some s →
      s = freshSession := by
    intro k s h
    unfold tlookup at h
    by_cases hk : ("1_2" : String) = k
    · rw [if_pos hk] at h
      exact (Option.some.inj h).symm
    · rw [if_neg hk] at h
      simp [tlookup] at h
  have h := c10_sessions_monotone env0 [("1_2", freshSession)] "1" "2" "hi" hinv
  refine ⟨h.1 "1_2" freshSession (by decide), ?_, ?_⟩
  · exact (h.2.2 (by decide) (by decide)).1
  · exact (h.2.2 (by decide) (by decide)).2

end ZaloApp
